import Mathlib

/-!
Verification of the task-orchestration core of the aiAgent repository.

The definitions below are a shallow embedding of the Python sources:

* `src/agent/unified_agent.py`  — task classification (`_rule_based_classify`),
  plan construction and the step-execution loop of `UnifiedAgent.execute_task`;
* `src/agent/reflection/evaluator.py` — `ResultEvaluator` and `EvaluationResult`;
* `src/agent/reflection/analyzer.py`  — `ReflectionAnalyzer._classify_failure`;
* `src/agent/reflection/wrapper.py`   — the `ReflectionAgent.execute_task` loop;
* `src/agent/react.py` / `src/agent/tools.py` — tool dispatch and the retry loop.

Python strings are modelled as `String`, Python float scores as `ℚ`, dicts as
structures whose fields carry the keys the code reads (a missing key and its
falsy default are identified), and calls into the generative backend (the
"oracle") as explicit parameters holding the parsed outcome of the call.
-/

namespace AgentSpec

/-- Containment of `pat` in `hay` over character lists, mirroring Python's
`pat in hay` on strings. -/
def listHas (pat : List Char) : List Char → Bool
  | [] => pat.isEmpty
  | c :: t => pat.isPrefixOf (c :: t) || listHas pat t

/-- Python `pat in hay` on strings. -/
def strHas (hay pat : String) : Bool :=
  listHas pat.data hay.data

/-- Python `s.lower()` (adequate for the ASCII letters appearing in the
keyword tables; CJK characters have no case).  Defined directly on the
character list so that it evaluates inside the kernel. -/
def strLower (s : String) : String :=
  ⟨s.data.map Char.toLower⟩

/-- Python `"sep".join(parts)`. -/
def joinStrs (sep : String) : List String → String
  | [] => ""
  | [s] => s
  | s :: rest => s ++ sep ++ joinStrs sep rest

/-- Python `min(a, x)` on numbers, written out so that it evaluates inside
the kernel. -/
def pymin (a x : ℚ) : ℚ :=
  if a ≤ x then a else x

/-- Task types of `unified_agent.py` (`class TaskType(Enum)`). -/
inductive TaskType
  | question_answering
  | literature_research
  | schedule_planning
  | experiment_management
  | general
deriving DecidableEq

/-- Keyword list for literature research in `_rule_based_classify`. -/
def literatureKeywords : List String :=
  ["论文", "文献", "搜索", "研究", "学术", "paper", "arxiv", "publication", "调研", "查找"]

/-- Keyword list for schedule planning in `_rule_based_classify`. -/
def scheduleKeywords : List String :=
  ["日程", "会议", "安排", "计划", "周", "明天", "下周", "schedule", "meeting", "plan", "提醒"]

/-- Keyword list for experiment management in `_rule_based_classify`. -/
def experimentKeywords : List String :=
  ["实验", "数据", "csv", "统计", "分析", "整理", "experiment", "data", "analysis"]

/-- Keyword list for question answering in `_rule_based_classify`. -/
def questionKeywords : List String :=
  ["解释", "什么是", "原理", "如何", "为什么", "explain", "what", "how", "why", "介绍"]

/-- `UnifiedAgent._rule_based_classify` (unified_agent.py lines 264–288): the
oracle-free classifier.  Each Python `for kw in kws: if kw in task_lower:
return t` loop over a constant list is the boolean `any` below; the loops are
tried in source order and the first hit returns. -/
def rule_based_classify (task : String) : TaskType :=
  let t := strLower task
  if literatureKeywords.any (fun kw => strHas t kw) then .literature_research
  else if scheduleKeywords.any (fun kw => strHas t kw) then .schedule_planning
  else if experimentKeywords.any (fun kw => strHas t kw) then .experiment_management
  else if questionKeywords.any (fun kw => strHas t kw) then .question_answering
  else .general

/-- A plan step as built by `PlanStep.__init__` (only the fields the claims
read; `status`/`output` live in the executor's `PlanEntry`). -/
structure PlanStepSpec where
  step_id : String
  name : String
  description : String
  output_type : String
deriving DecidableEq

/-- `UnifiedAgent._get_plan_for_type` (unified_agent.py lines 290–320): the
fixed three-step template per task type. -/
def get_plan_for_type : TaskType → List PlanStepSpec
  | .literature_research =>
      [⟨"search", "搜索相关文献", "根据关键词搜索学术论文", "paper_list"⟩,
       ⟨"analyze", "分析文献内容", "分析搜索到的文献，提取关键信息", "analysis"⟩,
       ⟨"summarize", "生成调研报告", "总结文献调研结果", "report"⟩]
  | .schedule_planning =>
      [⟨"parse", "解析时间需求", "提取日程时间和内容", "schedule_info"⟩,
       ⟨"create", "创建日程安排", "生成日程安排方案", "schedule"⟩,
       ⟨"remind", "设置提醒", "设置日程提醒", "reminder"⟩]
  | .experiment_management =>
      [⟨"analyze_request", "分析数据需求", "理解数据分析需求", "analysis"⟩,
       ⟨"generate_stats", "生成统计数据", "生成示例统计数据", "statistics"⟩,
       ⟨"report", "生成报告", "生成数据分析报告", "report"⟩]
  | .question_answering =>
      [⟨"understand", "理解问题", "分析问题核心要点", "analysis"⟩,
       ⟨"research", "查找资料", "搜索相关资料", "references"⟩,
       ⟨"answer", "生成答案", "组织并生成答案", "answer"⟩]
  | .general =>
      [⟨"understand", "理解任务", "分析任务需求", "analysis"⟩,
       ⟨"execute", "执行任务", "完成主要任务内容", "result"⟩,
       ⟨"verify", "验证结果", "检查任务完成情况", "verification"⟩]

/-- One entry of the oracle-produced `plan` list in `execute_task`; a field is
`none` when the corresponding dict key is absent. -/
structure LlmStepInfo where
  step_id : Option String
  name : Option String
  description : Option String
  output_type : Option String
deriving DecidableEq

/-- The `PlanStep(...)` construction of unified_agent.py lines 1154–1160: each
missing key falls back to its default, `step_id` to `step_{index}`. -/
def mkPlanStep (idx : ℕ) (info : LlmStepInfo) : PlanStepSpec :=
  ⟨info.step_id.getD ("step_" ++ toString idx),
   info.name.getD "执行步骤",
   info.description.getD "",
   info.output_type.getD "result"⟩

/-- Plan construction in `execute_task` (unified_agent.py lines 1152–1163): a
non-empty oracle plan is converted step by step, an empty one falls back to
the per-type template. -/
def build_plan_steps (llmPlan : List LlmStepInfo) (taskType : TaskType) : List PlanStepSpec :=
  if llmPlan.isEmpty then get_plan_for_type taskType
  else llmPlan.enum.map (fun p => mkPlanStep p.1 p.2)

/-- An oracle plan carrying the same step id twice. -/
def dupIdPlan : List LlmStepInfo :=
  [⟨some "a", none, none, none⟩, ⟨some "a", none, none, none⟩]

/-- C7: with the oracle absent, classification is the pure function
`rule_based_classify`; the four keyword rules are checked in the order
literature_research, schedule_planning, experiment_management,
question_answering, the first match wins, and no match yields general. -/
theorem rule_based_classify_ordered (task : String) :
    (rule_based_classify task = TaskType.literature_research ↔
      literatureKeywords.any (fun kw => strHas (strLower task) kw) = true)
    ∧ (rule_based_classify task = TaskType.schedule_planning ↔
      (literatureKeywords.any (fun kw => strHas (strLower task) kw) = false ∧
       scheduleKeywords.any (fun kw => strHas (strLower task) kw) = true))
    ∧ (rule_based_classify task = TaskType.experiment_management ↔
      (literatureKeywords.any (fun kw => strHas (strLower task) kw) = false ∧
       scheduleKeywords.any (fun kw => strHas (strLower task) kw) = false ∧
       experimentKeywords.any (fun kw => strHas (strLower task) kw) = true))
    ∧ (rule_based_classify task = TaskType.question_answering ↔
      (literatureKeywords.any (fun kw => strHas (strLower task) kw) = false ∧
       scheduleKeywords.any (fun kw => strHas (strLower task) kw) = false ∧
       experimentKeywords.any (fun kw => strHas (strLower task) kw) = false ∧
       questionKeywords.any (fun kw => strHas (strLower task) kw) = true))
    ∧ (rule_based_classify task = TaskType.general ↔
      (literatureKeywords.any (fun kw => strHas (strLower task) kw) = false ∧
       scheduleKeywords.any (fun kw => strHas (strLower task) kw) = false ∧
       experimentKeywords.any (fun kw => strHas (strLower task) kw) = false ∧
       questionKeywords.any (fun kw => strHas (strLower task) kw) = false)) := by
  unfold rule_based_classify
  dsimp only
  split_ifs with h1 h2 h3 h4 <;> simp_all

/-- C7 witness, Scenario A of the spec: the task
"帮我搜索关于 transformer 的论文" classifies as literature research. -/
theorem rule_based_classify_scenarioA :
    rule_based_classify "帮我搜索关于 transformer 的论文" = TaskType.literature_research :=
  ((rule_based_classify_ordered "帮我搜索关于 transformer 的论文").1).mpr (by decide)

/-- C8 counterexample: an oracle plan whose two steps share the id "a" is
passed straight through by the plan construction of `execute_task`; the built
plan has non-unique ids and is not the fallback template. -/
theorem build_plan_dup_ids_pass_through :
    ¬ ((build_plan_steps dupIdPlan TaskType.literature_research).map
        PlanStepSpec.step_id).Nodup
    ∧ build_plan_steps dupIdPlan TaskType.literature_research ≠
      get_plan_for_type TaskType.literature_research := by
  constructor
  · decide
  · decide

/-- C8 (amended): the fallback templates have unique, non-empty step ids and
are used exactly when the oracle plan is empty; a non-empty oracle plan is
converted entry by entry (missing ids defaulting to `step_{index}`) and passed
through unchanged, with no uniqueness or non-emptiness filtering. -/
theorem build_plan_steps_contract (llmPlan : List LlmStepInfo) (t : TaskType) :
    ((get_plan_for_type t).map PlanStepSpec.step_id).Nodup
    ∧ (∀ s ∈ get_plan_for_type t, s.step_id ≠ "")
    ∧ (llmPlan = [] → build_plan_steps llmPlan t = get_plan_for_type t)
    ∧ (llmPlan ≠ [] →
        build_plan_steps llmPlan t = llmPlan.enum.map (fun p => mkPlanStep p.1 p.2)) := by
  refine ⟨?_, ?_, ?_, ?_⟩
  · cases t <;> decide
  · cases t <;> decide
  · intro h; subst h; rfl
  · intro h
    cases llmPlan with
    | nil => exact absurd rfl h
    | cons x xs => rfl

/-- C8 witness: the duplicate-id plan is indeed passed through entry by
entry. -/
theorem build_plan_steps_contract_witness :
    build_plan_steps dupIdPlan TaskType.general =
      dupIdPlan.enum.map (fun p => mkPlanStep p.1 p.2) :=
  (build_plan_steps_contract dupIdPlan TaskType.general).2.2.2 (by decide)

/-- `class TaskStatus(Enum)` of unified_agent.py. -/
inductive StepStatus
  | pending
  | in_progress
  | completed
  | failed
deriving DecidableEq

/-- The keys of a step handler's result dict that the `execute_task` loop
reads for the final answer (`step_result.get("result", "完成")` and the
`"answer"` key of the answer step); `none` models an absent key. -/
structure StepResultBag where
  resultText : Option String
  answer : Option String
deriving DecidableEq

/-- One entry of `results["plan"]` after execution, together with the sequence
of statuses assigned to the corresponding `PlanStep` object over the run
(`PENDING` at construction, then each `_update_step_status` call in program
order). -/
structure PlanEntry where
  step_id : String
  name : String
  status : StepStatus
  errorMsg : Option String
  resultText : String
  statusHistory : List StepStatus
deriving DecidableEq

/-- The body of the `for i, step in enumerate(plan_steps)` loop of
`UnifiedAgent.execute_task` (unified_agent.py lines 1192–1239) for one step:
the step is marked in_progress, its handler either returns a result bag or
raises, and the step is then marked completed (recording the result text) or
failed (recording the captured error message).  The second component is the
string the loop appends to `final_results`. -/
def run_step : PlanStepSpec → Except String StepResultBag → PlanEntry × String
  | step, Except.ok res =>
      (⟨step.step_id, step.name, StepStatus.completed, none, res.resultText.getD "完成",
        [StepStatus.pending, StepStatus.in_progress, StepStatus.completed]⟩,
       if step.step_id = "answer" ∧ res.answer.isSome = true then
         "**" ++ step.name ++ "**:\n\n" ++ res.answer.getD ""
       else
         "**" ++ step.name ++ "**: " ++ res.resultText.getD "完成")
  | step, Except.error e =>
      (⟨step.step_id, step.name, StepStatus.failed, some e, "执行失败: " ++ e,
        [StepStatus.pending, StepStatus.in_progress, StepStatus.failed]⟩,
       "**" ++ step.name ++ "**: 执行失败 - " ++ e)

/-- The result envelope of `UnifiedAgent.execute_task` (the fields the claims
read). -/
structure ExecEnvelope where
  success : Bool
  final_answer : String
  planData : List PlanEntry
deriving DecidableEq

/-- The non-question-answering path of `UnifiedAgent.execute_task`
(unified_agent.py lines 1192–1251): every plan step runs in order, each paired
here with its handler outcome; the loop never breaks, the final answer joins
the per-step texts with a blank line, and the envelope is returned with
`success: True` unconditionally. -/
def execute_plan (steps : List (PlanStepSpec × Except String StepResultBag)) : ExecEnvelope :=
  let runs := steps.map (fun p => run_step p.1 p.2)
  ⟨true, joinStrs "\n\n" (runs.map Prod.snd), runs.map Prod.fst⟩

/-- The question-answering path of `UnifiedAgent.execute_task`
(`_execute_question_answering_stream`, unified_agent.py lines 1083–1100): one
synthetic plan entry created directly in status completed, and `success:
True`. -/
def question_answering_envelope (answer : String) : ExecEnvelope :=
  ⟨true, answer,
   [⟨"answer", "生成回答", StepStatus.completed, none, "", [StepStatus.completed]⟩]⟩

/-- Membership in a joined list of strings gives an infix of the joined
string, mirroring that every element of `final_results` occurs inside
`"\n\n".join(final_results)`. -/
theorem mem_joinStrs_infix (sep : String) (l : List String) (s : String) (h : s ∈ l) :
    s.data <:+: (joinStrs sep l).data := by
  induction l with
  | nil => cases h
  | cons x xs ih =>
    cases xs with
    | nil =>
      rcases List.mem_cons.mp h with hx | hx
      · subst hx; exact List.infix_rfl
      · cases hx
    | cons y ys =>
      rcases List.mem_cons.mp h with hx | hx
      · subst hx
        show s.data <:+: (s ++ sep ++ joinStrs sep (y :: ys)).data
        rw [String.data_append, String.data_append]
        exact List.IsPrefix.isInfix
          ((List.prefix_append s.data sep.data).trans
            (List.prefix_append (s.data ++ sep.data) (joinStrs sep (y :: ys)).data))
      · have hin := ih hx
        show s.data <:+: (x ++ sep ++ joinStrs sep (y :: ys)).data
        rw [String.data_append, String.data_append]
        exact List.IsInfix.trans hin
          (List.IsSuffix.isInfix (List.suffix_append (x.data ++ sep.data) _))

/-- C2: over a whole run of `execute_task`, each plan step's sequence of
status values is exactly [pending, in_progress, completed] or
[pending, in_progress, failed]; in particular it is a subsequence of one of
the two allowed chains, the status never moves backward, and a step is never
completed and later failed. -/
theorem step_status_monotone (steps : List (PlanStepSpec × Except String StepResultBag))
    (qaAnswer : String) (entry : PlanEntry)
    (h : entry ∈ (execute_plan steps).planData) :
    (entry.statusHistory = [StepStatus.pending, StepStatus.in_progress, StepStatus.completed]
      ∨ entry.statusHistory = [StepStatus.pending, StepStatus.in_progress, StepStatus.failed])
    ∧ ( List.Sublist entry.statusHistory
          [StepStatus.pending, StepStatus.in_progress, StepStatus.completed]
      ∨ List.Sublist entry.statusHistory
          [StepStatus.pending, StepStatus.in_progress, StepStatus.failed])
    ∧ ¬ List.Sublist [StepStatus.completed, StepStatus.failed] entry.statusHistory
    ∧ (∀ e ∈ (question_answering_envelope qaAnswer).planData,
        List.Sublist e.statusHistory
          [StepStatus.pending, StepStatus.in_progress, StepStatus.completed]) := by
  have hdisj : entry.statusHistory =
        [StepStatus.pending, StepStatus.in_progress, StepStatus.completed]
      ∨ entry.statusHistory =
        [StepStatus.pending, StepStatus.in_progress, StepStatus.failed] := by
    simp only [execute_plan, List.map_map, List.mem_map] at h
    obtain ⟨p, _, hp⟩ := h
    cases hrs : p.2 with
    | ok res => left; rw [← hp]; simp [Function.comp, hrs, run_step]
    | error e => right; rw [← hp]; simp [Function.comp, hrs, run_step]
  refine ⟨hdisj, ?_, ?_, ?_⟩
  · rcases hdisj with hc | hc <;> rw [hc]
    · left; exact List.Sublist.refl _
    · right; exact List.Sublist.refl _
  · intro hsub
    have hmem : StepStatus.completed ∈ entry.statusHistory :=
      List.Sublist.subset hsub (by simp)
    have hmemf : StepStatus.failed ∈ entry.statusHistory :=
      List.Sublist.subset hsub (by simp)
    rcases hdisj with hc | hc <;> rw [hc] at hsub
    · have : StepStatus.failed ∈
          [StepStatus.pending, StepStatus.in_progress, StepStatus.completed] := by
        rw [← hc]; exact hmemf
      simp at this
    · -- history is [pending, in_progress, failed]: a sublist starting with
      -- completed is impossible
      have : StepStatus.completed ∈
          [StepStatus.pending, StepStatus.in_progress, StepStatus.failed] := by
        rw [← hc]; exact hmem
      simp at this
  · intro e he
    simp only [question_answering_envelope, List.mem_singleton] at he
    subst he
    decide

/-- Concrete two-step run used to instantiate the executor theorems. -/
def wSteps : List (PlanStepSpec × Except String StepResultBag) :=
  [(⟨"s1", "n1", "d1", "text"⟩, Except.error "boom"),
   (⟨"s2", "n2", "d2", "text"⟩, Except.ok ⟨some "done", none⟩)]

/-- C2 witness: in the concrete run `wSteps`, the failed first step's status
history is one of the two allowed chains and never completed-then-failed. -/
theorem step_status_monotone_witness :
    (⟨"s1", "n1", StepStatus.failed, some "boom", "执行失败: boom",
      [StepStatus.pending, StepStatus.in_progress, StepStatus.failed]⟩ : PlanEntry).statusHistory
        = [StepStatus.pending, StepStatus.in_progress, StepStatus.completed]
    ∨ (⟨"s1", "n1", StepStatus.failed, some "boom", "执行失败: boom",
      [StepStatus.pending, StepStatus.in_progress, StepStatus.failed]⟩ : PlanEntry).statusHistory
        = [StepStatus.pending, StepStatus.in_progress, StepStatus.failed] :=
  (step_status_monotone wSteps "" _ (by decide)).1

/-- Helper: the plan-data entry at index `j` is the one produced by step `j`'s
own outcome. -/
theorem execute_plan_entry (steps : List (PlanStepSpec × Except String StepResultBag))
    (j : ℕ) (p : PlanStepSpec × Except String StepResultBag)
    (hp : steps.get? j = some p) :
    (execute_plan steps).planData.get? j = some (run_step p.1 p.2).1 := by
  have hplan : (execute_plan steps).planData =
      steps.map (fun q => (run_step q.1 q.2).1) := by
    simp [execute_plan, List.map_map, Function.comp]
  rw [hplan, List.get?_map, hp]
  rfl

/-- Helper: every step's summary text occurs inside the joined final
answer. -/
theorem execute_plan_summary_infix (steps : List (PlanStepSpec × Except String StepResultBag))
    (j : ℕ) (p : PlanStepSpec × Except String StepResultBag)
    (hp : steps.get? j = some p) :
    (run_step p.1 p.2).2.data <:+: (execute_plan steps).final_answer.data := by
  have hmem : (run_step p.1 p.2).2 ∈
      (steps.map (fun q => run_step q.1 q.2)).map Prod.snd := by
    have : (p.1, p.2) ∈ steps := by
      have := List.get?_mem hp
      simpa using this
    exact List.mem_map_of_mem Prod.snd (List.mem_map_of_mem _ this)
  exact mem_joinStrs_infix "\n\n" _ _ hmem

/-- C5: a step whose handler raises ends failed with the captured message
recorded on it, every step of the plan still executes (the plan data has one
entry per step, each produced by its own outcome), and both the failed step's
error text and every step's summary text occur inside the returned
final_answer. -/
theorem failed_step_does_not_abort (steps : List (PlanStepSpec × Except String StepResultBag))
    (i : ℕ) (st : PlanStepSpec) (e : String)
    (h : steps.get? i = some (st, Except.error e)) :
    (execute_plan steps).planData.get? i = some (run_step st (Except.error e)).1
    ∧ (run_step st (Except.error e)).1.status = StepStatus.failed
    ∧ (run_step st (Except.error e)).1.errorMsg = some e
    ∧ (execute_plan steps).planData.length = steps.length
    ∧ ("**" ++ st.name ++ "**: 执行失败 - " ++ e).data <:+:
        (execute_plan steps).final_answer.data
    ∧ (∀ j p, steps.get? j = some p →
        (run_step p.1 p.2).2.data <:+: (execute_plan steps).final_answer.data) := by
  refine ⟨execute_plan_entry steps i (st, Except.error e) h, rfl, rfl, ?_, ?_,
    fun j p hp => execute_plan_summary_infix steps j p hp⟩
  · simp [execute_plan]
  · exact execute_plan_summary_infix steps i (st, Except.error e) h

/-- C5 witness: in the concrete run `wSteps`, the failed first step records
its error, both steps execute, and the error text occurs in the final
answer. -/
theorem failed_step_does_not_abort_witness :
    (execute_plan wSteps).planData.length = wSteps.length
    ∧ ("**" ++ "n1" ++ "**: 执行失败 - " ++ "boom").data <:+:
        (execute_plan wSteps).final_answer.data :=
  ⟨(failed_step_does_not_abort wSteps 0 ⟨"s1", "n1", "d1", "text"⟩ "boom" rfl).2.2.2.1,
   (failed_step_does_not_abort wSteps 0 ⟨"s1", "n1", "d1", "text"⟩ "boom" rfl).2.2.2.2.1⟩

/-- C10: a run of `execute_task` that completes returns `success = True`
unconditionally, on both execution paths; a failing step is visible only as a
failed entry of the plan data (and in the final answer text), never in the
top-level success flag. -/
theorem execute_task_success_flag (steps : List (PlanStepSpec × Except String StepResultBag))
    (qaAnswer : String) :
    (execute_plan steps).success = true
    ∧ (question_answering_envelope qaAnswer).success = true
    ∧ (∀ i st e, steps.get? i = some (st, Except.error e) →
        (execute_plan steps).planData.get? i = some (run_step st (Except.error e)).1
        ∧ (run_step st (Except.error e)).1.status = StepStatus.failed) := by
  refine ⟨rfl, rfl, ?_⟩
  intro i st e h
  exact ⟨execute_plan_entry steps i (st, Except.error e) h, rfl⟩

/-- A run whose every step fails. -/
def allFailSteps : List (PlanStepSpec × Except String StepResultBag) :=
  [(⟨"s1", "n1", "d1", "text"⟩, Except.error "e1"),
   (⟨"s2", "n2", "d2", "text"⟩, Except.error "e2")]

/-- C10 witness: even when every plan step fails, the returned envelope has
`success = True`, while both entries carry status failed. -/
theorem execute_task_success_flag_witness :
    (execute_plan allFailSteps).success = true
    ∧ (run_step (⟨"s1", "n1", "d1", "text"⟩ : PlanStepSpec)
        (Except.error "e1")).1.status = StepStatus.failed :=
  ⟨(execute_task_success_flag allFailSteps "").1,
   ((execute_task_success_flag allFailSteps "").2.2 0 ⟨"s1", "n1", "d1", "text"⟩ "e1" rfl).2⟩

/-- A paper dict as read by the evaluator; a missing key is identified with
its falsy default ("" or 0). -/
structure Paper where
  title : String
  abstract : String
  url : String
  pdf_url : String
  citation_count : ℤ
deriving DecidableEq

/-- The result dict passed to `ResultEvaluator.evaluate` and
`ReflectionAnalyzer`, restricted to the keys those components read.
`nonempty` is the Python truthiness of the dict itself (`if not result`);
boolean fields are the truthiness of the corresponding values. -/
structure ResultBag where
  nonempty : Bool
  papers : List Paper
  research_papers : List Paper
  final_answer : String
  schedule_info : Bool
  reminder : Bool
  experiments : Bool
  experiment_result : Bool
  statistics : Bool
  plan_len : ℕ
deriving DecidableEq

/-- Paper-list selection of evaluator.py (e.g. lines 108–110): the papers of
`research_result` or, when empty, the top-level `papers`. -/
def litPapers (r : ResultBag) : List Paper :=
  if r.research_papers.isEmpty then r.papers else r.research_papers

/-- `ResultEvaluator._evaluate_completeness` (evaluator.py lines 99–158). -/
def evaluate_completeness (r : ResultBag) (t : TaskType) : ℚ :=
  if r.nonempty = false then 0
  else
    match t with
    | .literature_research =>
        let papers := litPapers r
        pymin 1
          (if papers.isEmpty then
            (if !r.final_answer.isEmpty && 100 < r.final_answer.length then (1 : ℚ)/2 else 0)
          else
            (2 : ℚ)/5 + (if 5 ≤ papers.length then (3 : ℚ)/10 else 0)
              + (if papers.all (fun p => !p.title.isEmpty) then (1 : ℚ)/5 else 0)
              + (if papers.all (fun p => !p.abstract.isEmpty) then (1 : ℚ)/10 else 0))
    | .question_answering =>
        pymin 1
          (if r.final_answer.isEmpty then 0
          else (3 : ℚ)/10 + (if 50 ≤ r.final_answer.length then (2 : ℚ)/5 else 0)
            + (if 200 ≤ r.final_answer.length then (3 : ℚ)/10 else 0))
    | .schedule_planning =>
        pymin 1
          ((if r.schedule_info || r.reminder then (1 : ℚ)/2 else 0)
            + (if !r.final_answer.isEmpty then (3 : ℚ)/10 else 0)
            + (if strHas r.final_answer "成功" then (1 : ℚ)/5 else 0))
    | .experiment_management =>
        pymin 1
          ((if r.experiments || r.experiment_result then (1 : ℚ)/2 else 0)
            + (if !r.final_answer.isEmpty then (3 : ℚ)/10 else 0)
            + (if r.statistics then (1 : ℚ)/5 else 0))
    | .general =>
        pymin 1
          ((if !r.final_answer.isEmpty then
              (1 : ℚ)/2 + (if 50 < r.final_answer.length then (3 : ℚ)/10 else 0)
            else 0)
            + (if 0 < r.plan_len then (1 : ℚ)/5 else 0))

/-- `ResultEvaluator._evaluate_accuracy` (evaluator.py lines 160–200).  The
keyword list extracted from the task by `re.findall` is abstracted as the
parameter `keywords`; the relevance count over the first ten papers follows
the source loop (at most one hit per paper). -/
def evaluate_accuracy (keywords : List String) (r : ResultBag) (t : TaskType) : ℚ :=
  if r.nonempty = false then 0
  else
    match t with
    | .literature_research =>
        let papers := litPapers r
        if papers.isEmpty then pymin 1 ((7 : ℚ)/10)
        else
          let relevant := (papers.take 10).countP (fun p =>
            keywords.any (fun kw =>
              strHas (strLower p.title) (strLower kw)
                || strHas (strLower p.abstract) (strLower kw)))
          pymin 1 ((1 : ℚ)/2 + ((relevant : ℚ) / ((min papers.length 10 : ℕ) : ℚ)) * ((1 : ℚ)/2))
    | .question_answering =>
        if r.final_answer.isEmpty then pymin 1 ((7 : ℚ)/10)
        else if strHas r.final_answer "抱歉" || strHas r.final_answer "无法"
            || strHas r.final_answer "错误" then pymin 1 ((3 : ℚ)/10)
        else if 100 < r.final_answer.length then pymin 1 ((4 : ℚ)/5)
        else pymin 1 ((3 : ℚ)/5)
    | _ => pymin 1 ((7 : ℚ)/10)

/-- `ResultEvaluator._evaluate_usefulness` (evaluator.py lines 202–235). -/
def evaluate_usefulness (r : ResultBag) (t : TaskType) : ℚ :=
  if r.nonempty = false then 0
  else
    match t with
    | .literature_research =>
        let papers := litPapers r
        pymin 1
          ((1 : ℚ)/2 +
            (if papers.isEmpty then 0 else
              (if papers.any (fun p => !p.url.isEmpty) then (1 : ℚ)/5 else 0)
                + (if papers.any (fun p => !p.pdf_url.isEmpty) then (1 : ℚ)/10 else 0)
                + (if papers.any (fun p => 0 < p.citation_count) then (1 : ℚ)/10 else 0)
                + (if papers.any (fun p => !p.abstract.isEmpty) then (1 : ℚ)/10 else 0)))
    | .question_answering =>
        pymin 1
          ((1 : ℚ)/2 + (if strHas r.final_answer "```" then (1 : ℚ)/5 else 0)
            + (if 3 < r.final_answer.data.count '\n' then (1 : ℚ)/10 else 0)
            + (if ["1.", "2.", "•", "-", "第一"].any (fun m => strHas r.final_answer m)
                then (1 : ℚ)/10 else 0)
            + (if strHas r.final_answer "例如" || strHas r.final_answer "比如"
                || strHas (strLower r.final_answer) "example" then (1 : ℚ)/10 else 0))
    | _ => pymin 1 ((1 : ℚ)/2)

/-- `ResultEvaluator._evaluate_clarity` (evaluator.py lines 237–262); the
paragraph test `len(answer.split("\n\n")) > 1` holds exactly when the answer
contains a blank line. -/
def evaluate_clarity (r : ResultBag) : ℚ :=
  if r.nonempty = false then 0
  else if r.final_answer.isEmpty then (1 : ℚ)/2
  else
    pymin 1
      ((1 : ℚ)/2
        + (if 50 < r.final_answer.length then (1 : ℚ)/10 else 0)
        + (if 200 < r.final_answer.length then (1 : ℚ)/10 else 0)
        + (if strHas r.final_answer "\n\n" then (1 : ℚ)/10 else 0)
        + (if strHas r.final_answer "```" then (1 : ℚ)/10 else 0)
        + (if strHas r.final_answer "##" then (1 : ℚ)/10 else 0))

/-- `EvaluationResult` of evaluator.py (numeric sub-scores, pass flag and
feedback text). -/
structure EvaluationResult where
  completeness : ℚ
  accuracy : ℚ
  usefulness : ℚ
  clarity : ℚ
  passed : Bool
  feedback : String
deriving DecidableEq

/-- The `overall_score` property of `EvaluationResult` (evaluator.py lines
18–23). -/
def EvaluationResult.overall_score (e : EvaluationResult) : ℚ :=
  e.completeness * ((3 : ℚ)/10) + e.accuracy * ((3 : ℚ)/10)
    + e.usefulness * ((1 : ℚ)/4) + e.clarity * ((3 : ℚ)/20)

/-- `EvaluationResult()` with the dataclass defaults. -/
def emptyEvaluation : EvaluationResult :=
  ⟨0, 0, 0, 0, false, ""⟩

/-- The four scores and feedback parsed out of the oracle's JSON reply in
`_llm_evaluate` (the `float(data.get(...))` values; nothing clamps them to
[0,1]). -/
structure LlmScores where
  completeness : ℚ
  accuracy : ℚ
  usefulness : ℚ
  clarity : ℚ
  feedback : String
deriving DecidableEq

/-- `ResultEvaluator._llm_evaluate` (evaluator.py lines 264–314): without a
client, or when the call raises or its output has no parsable JSON
(`parsed = none`), the default `EvaluationResult()` is returned; otherwise
the parsed scores. -/
def llm_evaluate (clientPresent : Bool) (parsed : Option LlmScores) : EvaluationResult :=
  if clientPresent then
    match parsed with
    | some d => ⟨d.completeness, d.accuracy, d.usefulness, d.clarity, false, d.feedback⟩
    | none => emptyEvaluation
  else emptyEvaluation

/-- `ResultEvaluator._generate_feedback` (evaluator.py lines 316–336). -/
def generate_feedback (c a u cl : ℚ) : String :=
  let parts : List String :=
    (if c < (1 : ℚ)/2 then ["结果不够完整"]
      else if c < (7 : ℚ)/10 then ["结果基本完整但可以更详细"] else [])
    ++ (if a < (1 : ℚ)/2 then ["结果准确性需要提高"] else [])
    ++ (if u < (1 : ℚ)/2 then ["结果的实用性有待加强"] else [])
    ++ (if cl < (1 : ℚ)/2 then ["结果表达可以更清晰"] else [])
  if parts.isEmpty then "结果质量良好" else joinStrs "；" parts

/-- `ResultEvaluator.evaluate` (evaluator.py lines 68–97): heuristic
sub-scores, optional averaging with the oracle pass, pass threshold 0.6, and
feedback selection. -/
def evaluate (keywords : List String) (r : ResultBag) (t : TaskType)
    (clientPresent : Bool) (parsed : Option LlmScores) : EvaluationResult :=
  let c0 := evaluate_completeness r t
  let a0 := evaluate_accuracy keywords r t
  let u0 := evaluate_usefulness r t
  let cl0 := evaluate_clarity r
  let l := llm_evaluate clientPresent parsed
  let c := if clientPresent then (c0 + l.completeness)/2 else c0
  let a := if clientPresent then (a0 + l.accuracy)/2 else a0
  let u := if clientPresent then (u0 + l.usefulness)/2 else u0
  let cl := if clientPresent then (cl0 + l.clarity)/2 else cl0
  let fb0 := if clientPresent && !l.feedback.isEmpty then l.feedback else ""
  let overall := c * ((3 : ℚ)/10) + a * ((3 : ℚ)/10) + u * ((1 : ℚ)/4) + cl * ((3 : ℚ)/20)
  ⟨c, a, u, cl, decide ((3 : ℚ)/5 ≤ overall),
    if fb0.isEmpty then generate_feedback c a u cl else fb0⟩

/-- Helper: `pymin 1 x` of a non-negative `x` lies in [0,1]. -/
theorem pymin_one_mem (x : ℚ) (hx : 0 ≤ x) : 0 ≤ pymin 1 x ∧ pymin 1 x ≤ 1 := by
  rw [pymin]
  split_ifs with h
  · exact ⟨zero_le_one, le_refl 1⟩
  · exact ⟨hx, le_of_not_le h⟩

/-- The completeness heuristic stays within [0,1]. -/
theorem evaluate_completeness_bounds (r : ResultBag) (t : TaskType) :
    0 ≤ evaluate_completeness r t ∧ evaluate_completeness r t ≤ 1 := by
  cases hn : r.nonempty with
  | false => simp [evaluate_completeness, hn]
  | true =>
      cases t <;>
          simp only [evaluate_completeness, hn, Bool.true_eq_false, if_false] <;>
        first
          | (apply pymin_one_mem; split_ifs <;> norm_num)
          | (apply pymin_one_mem; norm_num)

/-- The accuracy heuristic stays within [0,1]. -/
theorem evaluate_accuracy_bounds (keywords : List String) (r : ResultBag) (t : TaskType) :
    0 ≤ evaluate_accuracy keywords r t ∧ evaluate_accuracy keywords r t ≤ 1 := by
  cases hn : r.nonempty with
  | false => simp [evaluate_accuracy, hn]
  | true =>
      cases t with
      | literature_research =>
          simp only [evaluate_accuracy, hn, Bool.true_eq_false, if_false]
          split_ifs with hp
          · exact pymin_one_mem _ (by norm_num)
          · exact pymin_one_mem _ (by positivity)
      | question_answering =>
          simp only [evaluate_accuracy, hn, Bool.true_eq_false, if_false]
          split_ifs <;> exact pymin_one_mem _ (by norm_num)
      | schedule_planning =>
          simp only [evaluate_accuracy, hn, Bool.true_eq_false, if_false]
          exact pymin_one_mem _ (by norm_num)
      | experiment_management =>
          simp only [evaluate_accuracy, hn, Bool.true_eq_false, if_false]
          exact pymin_one_mem _ (by norm_num)
      | general =>
          simp only [evaluate_accuracy, hn, Bool.true_eq_false, if_false]
          exact pymin_one_mem _ (by norm_num)

/-- The usefulness heuristic stays within [0,1]. -/
theorem evaluate_usefulness_bounds (r : ResultBag) (t : TaskType) :
    0 ≤ evaluate_usefulness r t ∧ evaluate_usefulness r t ≤ 1 := by
  cases hn : r.nonempty with
  | false => simp [evaluate_usefulness, hn]
  | true =>
      cases t <;>
          simp only [evaluate_usefulness, hn, Bool.true_eq_false, if_false] <;>
        first
          | (apply pymin_one_mem; split_ifs <;> norm_num)
          | (apply pymin_one_mem; norm_num)

/-- The clarity heuristic stays within [0,1]. -/
theorem evaluate_clarity_bounds (r : ResultBag) :
    0 ≤ evaluate_clarity r ∧ evaluate_clarity r ≤ 1 := by
  cases hn : r.nonempty with
  | false => simp [evaluate_clarity, hn]
  | true =>
      cases he : r.final_answer.isEmpty with
      | true => norm_num [evaluate_clarity, hn, he]
      | false =>
          simp only [evaluate_clarity, hn, he, Bool.true_eq_false, Bool.false_eq_true,
            if_false]
          apply pymin_one_mem
          split_ifs <;> norm_num

/-- The oracle's parsed scores, out of the requested [0,1] range. -/
def outOfRangeScores : LlmScores :=
  ⟨3, 3, 3, 3, ""⟩

/-- The empty result dict. -/
def emptyBag : ResultBag :=
  ⟨false, [], [], "", false, false, false, false, false, 0⟩

/-- A non-empty result dict whose only content is the final answer "x". -/
def smallBag : ResultBag :=
  ⟨true, [], [], "x", false, false, false, false, false, 0⟩

/-- C3 counterexample: with the oracle pass returning scores outside [0,1]
(which `_llm_evaluate` parses without clamping), the produced overall score
exceeds 1, refuting "lies in the closed interval [0,1]". -/
theorem evaluate_overall_can_exceed_one :
    1 < (evaluate [] emptyBag TaskType.general true (some outOfRangeScores)).overall_score := by
  norm_num [evaluate, EvaluationResult.overall_score, evaluate_completeness,
    evaluate_accuracy, evaluate_usefulness, evaluate_clarity, llm_evaluate,
    emptyBag, outOfRangeScores]

/-- C3 (amended): every evaluation's overall score equals exactly
0.30·completeness + 0.30·accuracy + 0.25·usefulness + 0.15·clarity of its
sub-scores; it lies in [0,1] whenever the oracle pass is absent, whenever the
oracle call failed (all-zero default), and whenever the parsed oracle
sub-scores themselves lie in [0,1] — the code does not clamp out-of-range
oracle values. -/
theorem evaluate_overall_formula_and_bounds (keywords : List String) (r : ResultBag)
    (t : TaskType) (clientPresent : Bool) (parsed : Option LlmScores) :
    (evaluate keywords r t clientPresent parsed).overall_score
      = (evaluate keywords r t clientPresent parsed).completeness * ((3 : ℚ)/10)
        + (evaluate keywords r t clientPresent parsed).accuracy * ((3 : ℚ)/10)
        + (evaluate keywords r t clientPresent parsed).usefulness * ((1 : ℚ)/4)
        + (evaluate keywords r t clientPresent parsed).clarity * ((3 : ℚ)/20)
    ∧ (clientPresent = false →
        0 ≤ (evaluate keywords r t clientPresent parsed).overall_score
        ∧ (evaluate keywords r t clientPresent parsed).overall_score ≤ 1)
    ∧ (clientPresent = true → parsed = none →
        0 ≤ (evaluate keywords r t clientPresent parsed).overall_score
        ∧ (evaluate keywords r t clientPresent parsed).overall_score ≤ 1)
    ∧ (∀ d, clientPresent = true → parsed = some d →
        0 ≤ d.completeness → d.completeness ≤ 1 → 0 ≤ d.accuracy → d.accuracy ≤ 1 →
        0 ≤ d.usefulness → d.usefulness ≤ 1 → 0 ≤ d.clarity → d.clarity ≤ 1 →
        0 ≤ (evaluate keywords r t clientPresent parsed).overall_score
        ∧ (evaluate keywords r t clientPresent parsed).overall_score ≤ 1) := by
  obtain ⟨hc0, hc1⟩ := evaluate_completeness_bounds r t
  obtain ⟨ha0, ha1⟩ := evaluate_accuracy_bounds keywords r t
  obtain ⟨hu0, hu1⟩ := evaluate_usefulness_bounds r t
  obtain ⟨hl0, hl1⟩ := evaluate_clarity_bounds r
  refine ⟨rfl, ?_, ?_, ?_⟩
  · rintro rfl
    simp only [evaluate, EvaluationResult.overall_score, Bool.false_eq_true, if_false]
    constructor <;> linarith
  · rintro rfl rfl
    simp only [evaluate, EvaluationResult.overall_score, llm_evaluate, emptyEvaluation,
      if_true]
    constructor <;> linarith
  · rintro d rfl rfl h1 h2 h3 h4 h5 h6 h7 h8
    simp only [evaluate, EvaluationResult.overall_score, llm_evaluate, if_true]
    constructor <;> linarith

/-- C3 witness: at a concrete oracle-free input the overall score of the
produced evaluation equals the weighted formula and lies in [0,1]. -/
theorem evaluate_overall_formula_witness :
    0 ≤ (evaluate [] smallBag TaskType.general false none).overall_score
    ∧ (evaluate [] smallBag TaskType.general false none).overall_score ≤ 1 :=
  (evaluate_overall_formula_and_bounds [] smallBag TaskType.general false none).2.1 rfl

/-- C9 counterexample: when the oracle is present but its evaluation call
fails (no parsable output), the returned sub-scores do not equal the
heuristic sub-scores — the failed pass is averaged in as zeros. -/
theorem evaluate_oracle_failure_not_heuristic :
    (evaluate [] smallBag TaskType.general true none).completeness ≠
      evaluate_completeness smallBag TaskType.general := by
  have he : ("x".isEmpty) = false := rfl
  have hl : ("x".length) = 1 := rfl
  have h1 : evaluate_completeness smallBag TaskType.general = 1/2 := by
    norm_num [evaluate_completeness, smallBag, pymin, he, hl]
  have h2 : (evaluate [] smallBag TaskType.general true none).completeness
      = (evaluate_completeness smallBag TaskType.general + 0)/2 := rfl
  rw [h2, h1]
  norm_num

/-- C9 (amended): when the oracle is available but its evaluation call fails
or returns unparsable output, `evaluate` still returns deterministically and
without surfacing an error: each returned sub-score equals half the heuristic
sub-score (the heuristic averaged with the all-zero default evaluation), and
the feedback is the heuristic feedback generated from those halved scores. -/
theorem evaluate_oracle_failure_fallback (keywords : List String) (r : ResultBag)
    (t : TaskType) :
    (evaluate keywords r t true none).completeness = evaluate_completeness r t / 2
    ∧ (evaluate keywords r t true none).accuracy = evaluate_accuracy keywords r t / 2
    ∧ (evaluate keywords r t true none).usefulness = evaluate_usefulness r t / 2
    ∧ (evaluate keywords r t true none).clarity = evaluate_clarity r / 2
    ∧ (evaluate keywords r t true none).feedback =
        generate_feedback (evaluate_completeness r t / 2)
          (evaluate_accuracy keywords r t / 2)
          (evaluate_usefulness r t / 2) (evaluate_clarity r / 2) := by
  have hz : ∀ x : ℚ, (x + (0 : ℚ))/2 = x/2 := fun x => by rw [add_zero]
  refine ⟨hz _, hz _, hz _, hz _, ?_⟩
  show generate_feedback ((evaluate_completeness r t + 0)/2)
      ((evaluate_accuracy keywords r t + 0)/2)
      ((evaluate_usefulness r t + 0)/2) ((evaluate_clarity r + 0)/2) = _
  rw [hz, hz, hz, hz]

/-- Failure-indicating substrings checked by `_classify_failure`. -/
def failIndicators : List String :=
  ["错误", "失败", "异常", "error", "failed"]

/-- `ReflectionAnalyzer._classify_failure` (analyzer.py lines 81–99). -/
def classify_failure (r : ResultBag) (e : EvaluationResult) : String :=
  if r.nonempty = false then "no_results"
  else if e.completeness < (2 : ℚ)/5 then "incomplete_results"
  else if e.accuracy < (2 : ℚ)/5 then "irrelevant_results"
  else if failIndicators.any (fun s => strHas r.final_answer s) then "api_error"
  else if e.completeness < (3 : ℚ)/5 ∨ e.accuracy < (3 : ℚ)/5 then "incomplete_results"
  else "unknown"

/-- The failure_type assigned by `ReflectionAnalyzer.analyze` (analyzer.py
lines 45–55): a passing evaluation keeps the default empty tag, a failing one
is classified by `_classify_failure`; the oracle path never overrides the
failure_type. -/
def analyze_failure_type (r : ResultBag) (e : EvaluationResult) : String :=
  if (3 : ℚ)/5 ≤ e.overall_score then "" else classify_failure r e

/-- C4: for a failing evaluation the analyzer assigns failure_type by the
first matching rule, in this exact order: empty result ⇒ no_results;
completeness < 0.4 ⇒ incomplete_results; accuracy < 0.4 ⇒
irrelevant_results; failure-indicating text in the final answer ⇒ api_error;
completeness < 0.6 or accuracy < 0.6 ⇒ incomplete_results; otherwise
unknown. -/
theorem classify_failure_ordered (r : ResultBag) (e : EvaluationResult)
    (hfail : e.overall_score < (3 : ℚ)/5) :
    (r.nonempty = false → analyze_failure_type r e = "no_results")
    ∧ (r.nonempty = true → e.completeness < (2 : ℚ)/5 →
        analyze_failure_type r e = "incomplete_results")
    ∧ (r.nonempty = true → (2 : ℚ)/5 ≤ e.completeness → e.accuracy < (2 : ℚ)/5 →
        analyze_failure_type r e = "irrelevant_results")
    ∧ (r.nonempty = true → (2 : ℚ)/5 ≤ e.completeness → (2 : ℚ)/5 ≤ e.accuracy →
        failIndicators.any (fun s => strHas r.final_answer s) = true →
        analyze_failure_type r e = "api_error")
    ∧ (r.nonempty = true → (2 : ℚ)/5 ≤ e.completeness → (2 : ℚ)/5 ≤ e.accuracy →
        failIndicators.any (fun s => strHas r.final_answer s) = false →
        (e.completeness < (3 : ℚ)/5 ∨ e.accuracy < (3 : ℚ)/5) →
        analyze_failure_type r e = "incomplete_results")
    ∧ (r.nonempty = true → (2 : ℚ)/5 ≤ e.completeness → (2 : ℚ)/5 ≤ e.accuracy →
        failIndicators.any (fun s => strHas r.final_answer s) = false →
        (3 : ℚ)/5 ≤ e.completeness → (3 : ℚ)/5 ≤ e.accuracy →
        analyze_failure_type r e = "unknown") := by
  have hne : ¬ ((3 : ℚ)/5 ≤ e.overall_score) := not_le.mpr hfail
  rw [analyze_failure_type, if_neg hne, classify_failure]
  refine ⟨?_, ?_, ?_, ?_, ?_, ?_⟩
  · intro h1; rw [if_pos h1]
  · intro h1 h2
    rw [if_neg (by simp [h1]), if_pos h2]
  · intro h1 h2 h3
    rw [if_neg (by simp [h1]), if_neg (not_lt.mpr h2), if_pos h3]
  · intro h1 h2 h3 h4
    rw [if_neg (by simp [h1]), if_neg (not_lt.mpr h2), if_neg (not_lt.mpr h3), if_pos h4]
  · intro h1 h2 h3 h4 h5
    rw [if_neg (by simp [h1]), if_neg (not_lt.mpr h2), if_neg (not_lt.mpr h3),
      if_neg (by simp [h4]), if_pos h5]
  · intro h1 h2 h3 h4 h5 h6
    rw [if_neg (by simp [h1]), if_neg (not_lt.mpr h2), if_neg (not_lt.mpr h3),
      if_neg (by simp [h4]), if_neg (by push_neg; exact ⟨h5, h6⟩)]

/-- A failing evaluation with mid-range completeness. -/
def wEval : EvaluationResult :=
  ⟨(1 : ℚ)/2, (7 : ℚ)/10, 0, 0, false, ""⟩

/-- C4 witness: for the concrete result "x" with completeness 0.5 and
accuracy 0.7 (overall 0.36, failing), the fifth rule fires and the failure is
classified incomplete_results. -/
theorem classify_failure_ordered_witness :
    analyze_failure_type smallBag wEval = "incomplete_results" :=
  (classify_failure_ordered smallBag wEval
      (by norm_num [EvaluationResult.overall_score, wEval])).2.2.2.2.1
    rfl (by norm_num [wEval]) (by norm_num [wEval]) (by decide)
    (Or.inl (by norm_num [wEval]))

/-- The envelope built by `ReflectionAgent.execute_task` out of the returned
attempt: the chosen result, the reported iteration count, the reported
final_score and the pass flag. -/
structure ReflectionOutcome (α : Type) where
  result : α
  iterations : ℕ
  final_score : ℚ
  passed : Bool

/-- The `while iteration <= self.MAX_ITERATIONS` loop of
`ReflectionAgent.execute_task` (wrapper.py lines 38–129).  `a k` is the
result and overall evaluation score of the attempt run at iteration `k` (the
task/context evolution through the adjuster is absorbed into this indexing);
an attempt passes exactly when its score reaches the evaluator threshold 0.6.
The first argument is the number of loop iterations still allowed after the
current one (`MAX_ITERATIONS - iteration`); `best`/`bs` carry Python's
`best_result`/`best_score` (initially `None`/`0.0`, updated on strict
improvement before the pass test). -/
def reflect_go {α : Type} (a : ℕ → α × ℚ) : ℕ → ℕ → Option α → ℚ → ReflectionOutcome α
  | 0, it, best, bs =>
      if (3 : ℚ)/5 ≤ (a it).2 then ⟨(a it).1, it, (a it).2, true⟩
      else if bs < (a it).2 then ⟨(a it).1, it, (a it).2, false⟩
      else
        match best with
        | some b => ⟨b, it, bs, false⟩
        | none => ⟨(a it).1, it, (a it).2, false⟩
  | r + 1, it, best, bs =>
      if (3 : ℚ)/5 ≤ (a it).2 then ⟨(a it).1, it, (a it).2, true⟩
      else
        reflect_go a r (it + 1)
          (if bs < (a it).2 then some (a it).1 else best)
          (if bs < (a it).2 then (a it).2 else bs)

/-- `ReflectionAgent.execute_task` with reflection enabled: run the loop from
iteration 0 with `maxIterations` additional iterations allowed. -/
def execute_with_reflection {α : Type} (a : ℕ → α × ℚ) (maxIterations : ℕ) :
    ReflectionOutcome α :=
  reflect_go a maxIterations 0 none 0

/-- `ReflectionAgent.set_max_iterations` (wrapper.py lines 156–157):
`max(0, min(5, max_iterations))`. -/
def set_max_iterations (x : ℤ) : ℤ :=
  max 0 (min 5 x)

/-- Unfolding of `reflect_go` at remaining budget 2. -/
theorem reflect_go_two {α : Type} (a : ℕ → α × ℚ) (it : ℕ) (best : Option α) (bs : ℚ) :
    reflect_go a 2 it best bs =
      if (3 : ℚ)/5 ≤ (a it).2 then ⟨(a it).1, it, (a it).2, true⟩
      else
        reflect_go a 1 (it + 1)
          (if bs < (a it).2 then some (a it).1 else best)
          (if bs < (a it).2 then (a it).2 else bs) := rfl

/-- Unfolding of `reflect_go` at remaining budget 1. -/
theorem reflect_go_one {α : Type} (a : ℕ → α × ℚ) (it : ℕ) (best : Option α) (bs : ℚ) :
    reflect_go a 1 it best bs =
      if (3 : ℚ)/5 ≤ (a it).2 then ⟨(a it).1, it, (a it).2, true⟩
      else
        reflect_go a 0 (it + 1)
          (if bs < (a it).2 then some (a it).1 else best)
          (if bs < (a it).2 then (a it).2 else bs) := rfl

/-- Unfolding of `reflect_go` at remaining budget 0 (the break iteration). -/
theorem reflect_go_zero {α : Type} (a : ℕ → α × ℚ) (it : ℕ) (best : Option α) (bs : ℚ) :
    reflect_go a 0 it best bs =
      if (3 : ℚ)/5 ≤ (a it).2 then ⟨(a it).1, it, (a it).2, true⟩
      else if bs < (a it).2 then ⟨(a it).1, it, (a it).2, false⟩
      else
        match best with
        | some b => ⟨b, it, bs, false⟩
        | none => ⟨(a it).1, it, (a it).2, false⟩ := rfl

/-- Helper: the reported iteration index never exceeds the budget. -/
theorem reflect_go_iterations_le {α : Type} (a : ℕ → α × ℚ) :
    ∀ (r it : ℕ) (best : Option α) (bs : ℚ),
      (reflect_go a r it best bs).iterations ≤ it + r := by
  intro r
  induction r with
  | zero =>
      intro it best bs
      rw [reflect_go_zero]
      split_ifs <;> cases best <;> simp
  | succ r ih =>
      intro it best bs
      rw [reflect_go]
      split_ifs with h
      · simp
      all_goals exact le_trans (ih _ _ _) (by omega)

/-- C1 (amended): with reflection enabled and the default bound
`MAX_ITERATIONS = 2`, at most 2 additional iterations run after the first
attempt (the reported iteration index never exceeds 2, i.e. at most 3
attempts run); `set_max_iterations` clamps its argument to [0,5] (and is the
identity there); if some attempt passes, the first passing attempt's result
and score are returned immediately at that iteration; and if no attempt
passes, then — provided every iteration's overall score is non-negative
(`hpos`; heuristic scores always are, only unclamped out-of-range oracle
sub-scores can be negative) — the loop returns a best-scoring attempt and
reports final_score equal to the maximum of the three iterations' overall
scores.  Without `hpos` the best-of property fails: best tracking starts at
0.0 and updates only on strict improvement, so with all-negative scores the
last attempt and its own score are returned (see the counterexample). -/
theorem reflection_loop_correct {α : Type} (attempt : ℕ → α × ℚ)
    (hpos : ∀ k, 0 ≤ (attempt k).2) :
    (execute_with_reflection attempt 2).iterations ≤ 2
    ∧ (∀ x : ℤ, 0 ≤ set_max_iterations x ∧ set_max_iterations x ≤ 5
        ∧ (0 ≤ x → x ≤ 5 → set_max_iterations x = x))
    ∧ (∀ j : ℕ, j ≤ 2 → (3 : ℚ)/5 ≤ (attempt j).2 →
        (∀ k, k < j → (attempt k).2 < (3 : ℚ)/5) →
        execute_with_reflection attempt 2 =
          ⟨(attempt j).1, j, (attempt j).2, true⟩)
    ∧ ((∀ k, k ≤ 2 → (attempt k).2 < (3 : ℚ)/5) →
        (execute_with_reflection attempt 2).passed = false
        ∧ (execute_with_reflection attempt 2).final_score =
            max (attempt 0).2 (max (attempt 1).2 (attempt 2).2)
        ∧ ∃ k, k ≤ 2 ∧ (execute_with_reflection attempt 2).result = (attempt k).1
            ∧ (attempt k).2 = (execute_with_reflection attempt 2).final_score) := by
  refine ⟨?_, ?_, ?_, ?_⟩
  · simpa [execute_with_reflection] using reflect_go_iterations_le attempt 2 0 none 0
  · intro x
    refine ⟨le_max_left _ _, max_le (by norm_num) (min_le_left _ _), ?_⟩
    intro hx0 hx5
    rw [set_max_iterations, min_eq_right hx5, max_eq_right hx0]
  · intro j hj hpass hfirst
    interval_cases j
    · rw [execute_with_reflection, reflect_go_two, if_pos hpass]
    · have hf0 : (attempt 0).2 < (3 : ℚ)/5 := hfirst 0 (by norm_num)
      rw [execute_with_reflection, reflect_go_two, if_neg (not_le.mpr hf0),
        reflect_go_one, if_pos hpass]
    · have hf0 : (attempt 0).2 < (3 : ℚ)/5 := hfirst 0 (by norm_num)
      have hf1 : (attempt 1).2 < (3 : ℚ)/5 := hfirst 1 (by norm_num)
      rw [execute_with_reflection, reflect_go_two, if_neg (not_le.mpr hf0),
        reflect_go_one, if_neg (not_le.mpr hf1), reflect_go_zero, if_pos hpass]
  · intro hall
    have h0 : (attempt 0).2 < (3 : ℚ)/5 := hall 0 (by norm_num)
    have h1 : (attempt 1).2 < (3 : ℚ)/5 := hall 1 (by norm_num)
    have h2 : (attempt 2).2 < (3 : ℚ)/5 := hall 2 (by norm_num)
    have p0 := hpos 0
    have p1 := hpos 1
    have p2 := hpos 2
    rcases lt_or_le 0 (attempt 0).2 with c0 | c0
    · rcases lt_or_le (attempt 0).2 (attempt 1).2 with c1 | c1
      · rcases lt_or_le (attempt 1).2 (attempt 2).2 with c2 | c2
        · have hE : execute_with_reflection attempt 2 =
              ⟨(attempt 2).1, 0 + 1 + 1, (attempt 2).2, false⟩ := by
            rw [execute_with_reflection, reflect_go_two, if_neg (not_le.mpr h0),
              if_pos c0, if_pos c0, reflect_go_one, if_neg (not_le.mpr h1),
              if_pos c1, if_pos c1, reflect_go_zero, if_neg (not_le.mpr h2),
              if_pos c2]
          rw [hE]
          refine ⟨rfl, ?_, ⟨2, by norm_num, rfl, ?_⟩⟩
          · show (attempt 2).2 = max (attempt 0).2 (max (attempt 1).2 (attempt 2).2)
            rw [max_eq_right (le_of_lt c2), max_eq_right (le_of_lt (lt_trans c1 c2))]
          · rfl
        · have hE : execute_with_reflection attempt 2 =
              ⟨(attempt 1).1, 0 + 1 + 1, (attempt 1).2, false⟩ := by
            rw [execute_with_reflection, reflect_go_two, if_neg (not_le.mpr h0),
              if_pos c0, if_pos c0, reflect_go_one, if_neg (not_le.mpr h1),
              if_pos c1, if_pos c1, reflect_go_zero, if_neg (not_le.mpr h2),
              if_neg (not_lt.mpr c2)]
          rw [hE]
          refine ⟨rfl, ?_, ⟨1, by norm_num, rfl, ?_⟩⟩
          · show (attempt 1).2 = max (attempt 0).2 (max (attempt 1).2 (attempt 2).2)
            rw [max_eq_left c2, max_eq_right (le_of_lt c1)]
          · rfl
      · rcases lt_or_le (attempt 0).2 (attempt 2).2 with c2 | c2
        · have hE : execute_with_reflection attempt 2 =
              ⟨(attempt 2).1, 0 + 1 + 1, (attempt 2).2, false⟩ := by
            rw [execute_with_reflection, reflect_go_two, if_neg (not_le.mpr h0),
              if_pos c0, if_pos c0, reflect_go_one, if_neg (not_le.mpr h1),
              if_neg (not_lt.mpr c1), if_neg (not_lt.mpr c1), reflect_go_zero,
              if_neg (not_le.mpr h2), if_pos c2]
          rw [hE]
          refine ⟨rfl, ?_, ⟨2, by norm_num, rfl, ?_⟩⟩
          · show (attempt 2).2 = max (attempt 0).2 (max (attempt 1).2 (attempt 2).2)
            rw [max_eq_right (le_of_lt (lt_of_le_of_lt c1 c2)),
              max_eq_right (le_of_lt c2)]
          · rfl
        · have hE : execute_with_reflection attempt 2 =
              ⟨(attempt 0).1, 0 + 1 + 1, (attempt 0).2, false⟩ := by
            rw [execute_with_reflection, reflect_go_two, if_neg (not_le.mpr h0),
              if_pos c0, if_pos c0, reflect_go_one, if_neg (not_le.mpr h1),
              if_neg (not_lt.mpr c1), if_neg (not_lt.mpr c1), reflect_go_zero,
              if_neg (not_le.mpr h2), if_neg (not_lt.mpr c2)]
          rw [hE]
          refine ⟨rfl, ?_, ⟨0, by norm_num, rfl, ?_⟩⟩
          · show (attempt 0).2 = max (attempt 0).2 (max (attempt 1).2 (attempt 2).2)
            rw [max_eq_left (max_le c1 c2)]
          · rfl
    · have hs0 : (attempt 0).2 = 0 := le_antisymm c0 p0
      rcases lt_or_le 0 (attempt 1).2 with c1 | c1
      · rcases lt_or_le (attempt 1).2 (attempt 2).2 with c2 | c2
        · have hE : execute_with_reflection attempt 2 =
              ⟨(attempt 2).1, 0 + 1 + 1, (attempt 2).2, false⟩ := by
            rw [execute_with_reflection, reflect_go_two, if_neg (not_le.mpr h0),
              if_neg (not_lt.mpr c0), if_neg (not_lt.mpr c0), reflect_go_one,
              if_neg (not_le.mpr h1), if_pos c1, if_pos c1, reflect_go_zero,
              if_neg (not_le.mpr h2), if_pos c2]
          rw [hE]
          refine ⟨rfl, ?_, ⟨2, by norm_num, rfl, ?_⟩⟩
          · show (attempt 2).2 = max (attempt 0).2 (max (attempt 1).2 (attempt 2).2)
            rw [hs0, max_eq_right (le_of_lt c2), max_eq_right p2]
          · rfl
        · have hE : execute_with_reflection attempt 2 =
              ⟨(attempt 1).1, 0 + 1 + 1, (attempt 1).2, false⟩ := by
            rw [execute_with_reflection, reflect_go_two, if_neg (not_le.mpr h0),
              if_neg (not_lt.mpr c0), if_neg (not_lt.mpr c0), reflect_go_one,
              if_neg (not_le.mpr h1), if_pos c1, if_pos c1, reflect_go_zero,
              if_neg (not_le.mpr h2), if_neg (not_lt.mpr c2)]
          rw [hE]
          refine ⟨rfl, ?_, ⟨1, by norm_num, rfl, ?_⟩⟩
          · show (attempt 1).2 = max (attempt 0).2 (max (attempt 1).2 (attempt 2).2)
            rw [hs0, max_eq_left c2, max_eq_right (le_of_lt c1)]
          · rfl
      · have hs1 : (attempt 1).2 = 0 := le_antisymm c1 p1
        rcases lt_or_le 0 (attempt 2).2 with c2 | c2
        · have hE : execute_with_reflection attempt 2 =
              ⟨(attempt 2).1, 0 + 1 + 1, (attempt 2).2, false⟩ := by
            rw [execute_with_reflection, reflect_go_two, if_neg (not_le.mpr h0),
              if_neg (not_lt.mpr c0), if_neg (not_lt.mpr c0), reflect_go_one,
              if_neg (not_le.mpr h1), if_neg (not_lt.mpr c1), if_neg (not_lt.mpr c1),
              reflect_go_zero, if_neg (not_le.mpr h2), if_pos c2]
          rw [hE]
          refine ⟨rfl, ?_, ⟨2, by norm_num, rfl, ?_⟩⟩
          · show (attempt 2).2 = max (attempt 0).2 (max (attempt 1).2 (attempt 2).2)
            rw [hs0, hs1, max_eq_right p2, max_eq_right p2]
          · rfl
        · have hs2 : (attempt 2).2 = 0 := le_antisymm c2 p2
          have hE : execute_with_reflection attempt 2 =
              ⟨(attempt 2).1, 0 + 1 + 1, (attempt 2).2, false⟩ := by
            rw [execute_with_reflection, reflect_go_two, if_neg (not_le.mpr h0),
              if_neg (not_lt.mpr c0), if_neg (not_lt.mpr c0), reflect_go_one,
              if_neg (not_le.mpr h1), if_neg (not_lt.mpr c1), if_neg (not_lt.mpr c1),
              reflect_go_zero, if_neg (not_le.mpr h2), if_neg (not_lt.mpr c2)]
          rw [hE]
          refine ⟨rfl, ?_, ⟨2, by norm_num, rfl, ?_⟩⟩
          · show (attempt 2).2 = max (attempt 0).2 (max (attempt 1).2 (attempt 2).2)
            rw [hs0, hs1, hs2]
            norm_num
          · rfl

/-- A concrete attempt sequence: score 1/2 at iteration 0, then 7/10. -/
def wAttempt : ℕ → String × ℚ :=
  fun k => (toString k, if k = 0 then (1 : ℚ)/2 else (7 : ℚ)/10)

/-- C1 witness: on `wAttempt` the loop keeps its bound and returns the first
passing attempt (iteration 1, score 7/10) immediately. -/
theorem reflection_loop_correct_witness :
    (execute_with_reflection wAttempt 2).iterations ≤ 2
    ∧ execute_with_reflection wAttempt 2 =
        ⟨(wAttempt 1).1, 1, (wAttempt 1).2, true⟩ := by
  have h := reflection_loop_correct wAttempt (by
    intro k
    by_cases hk : k = 0 <;> simp [wAttempt, hk] <;> norm_num)
  refine ⟨h.1, h.2.2.1 1 (by norm_num) ?_ ?_⟩
  · simp only [wAttempt]
    norm_num
  · intro k hk
    interval_cases k
    simp only [wAttempt]
    norm_num

/-- An attempt sequence whose overall scores are all negative (reachable when
the unclamped oracle pass returns out-of-range sub-scores): -1/2, -3/10,
-1/2. -/
def cNegAttempt : ℕ → String × ℚ
  | 0 => ("0", -(1 : ℚ)/2)
  | 1 => ("1", -(3 : ℚ)/10)
  | _ => ("2", -(1 : ℚ)/2)

/-- C1 counterexample: on `cNegAttempt` no attempt passes, yet the loop does
not return a best-scoring attempt: `best_score` starts at 0.0 and is updated
only on strict improvement, so `best_result` stays None and wrapper.py lines
121–129 return the last attempt with its own score -1/2 as final_score,
while the maximum of the three iterations' scores is -3/10 (attained at
iteration 1, not by the returned attempt). -/
theorem reflection_best_of_claim_false :
    ((cNegAttempt 0).2 < (3 : ℚ)/5 ∧ (cNegAttempt 1).2 < (3 : ℚ)/5
      ∧ (cNegAttempt 2).2 < (3 : ℚ)/5)
    ∧ (execute_with_reflection cNegAttempt 2).passed = false
    ∧ max (cNegAttempt 0).2 (max (cNegAttempt 1).2 (cNegAttempt 2).2) = -(3 : ℚ)/10
    ∧ (execute_with_reflection cNegAttempt 2).final_score = -(1 : ℚ)/2
    ∧ (execute_with_reflection cNegAttempt 2).final_score ≠
        max (cNegAttempt 0).2 (max (cNegAttempt 1).2 (cNegAttempt 2).2)
    ∧ (execute_with_reflection cNegAttempt 2).result = (cNegAttempt 2).1
    ∧ (cNegAttempt 2).2 ≠
        max (cNegAttempt 0).2 (max (cNegAttempt 1).2 (cNegAttempt 2).2) := by
  have e0 : (cNegAttempt 0).2 = -(1 : ℚ)/2 := rfl
  have e1 : (cNegAttempt 1).2 = -(3 : ℚ)/10 := rfl
  have e2 : (cNegAttempt 2).2 = -(1 : ℚ)/2 := rfl
  have n0 : ¬((3 : ℚ)/5 ≤ (cNegAttempt 0).2) := by rw [e0]; norm_num
  have n1 : ¬((3 : ℚ)/5 ≤ (cNegAttempt 1).2) := by rw [e1]; norm_num
  have n2 : ¬((3 : ℚ)/5 ≤ (cNegAttempt 2).2) := by rw [e2]; norm_num
  have m0 : ¬((0 : ℚ) < (cNegAttempt 0).2) := by rw [e0]; norm_num
  have m1 : ¬((0 : ℚ) < (cNegAttempt 1).2) := by rw [e1]; norm_num
  have m2 : ¬((0 : ℚ) < (cNegAttempt 2).2) := by rw [e2]; norm_num
  have hE : execute_with_reflection cNegAttempt 2 =
      ⟨(cNegAttempt 2).1, 0 + 1 + 1, (cNegAttempt 2).2, false⟩ := by
    rw [execute_with_reflection, reflect_go_two, if_neg n0, if_neg m0, if_neg m0,
      reflect_go_one, if_neg n1, if_neg m1, if_neg m1, reflect_go_zero, if_neg n2,
      if_neg m2]
  have hmax : max (cNegAttempt 0).2 (max (cNegAttempt 1).2 (cNegAttempt 2).2)
      = -(3 : ℚ)/10 := by
    rw [e0, e1, e2, max_eq_left (by norm_num : -(1 : ℚ)/2 ≤ -(3 : ℚ)/10),
      max_eq_right (by norm_num : -(1 : ℚ)/2 ≤ -(3 : ℚ)/10)]
  refine ⟨⟨by rw [e0]; norm_num, by rw [e1]; norm_num, by rw [e2]; norm_num⟩,
    ?_, hmax, ?_, ?_, ?_, ?_⟩
  · rw [hE]
  · rw [hE]
    exact e2
  · rw [hE, hmax]
    show (cNegAttempt 2).2 ≠ -(3 : ℚ)/10
    rw [e2]
    norm_num
  · rw [hE]
  · rw [hmax, e2]
    norm_num

/-- A structured tool-result envelope (the dicts returned by tools and by
`execute_async_tool`; only the keys the claims read).  The envelopes built by
the dispatch layer carry no retry_count key. -/
structure ToolEnvelope where
  success : Bool
  error : Option String
  message : Option String
deriving DecidableEq

/-- Behavior of one underlying invocation of a registered async tool: it
either raises an exception with a message or returns an envelope. -/
inductive ToolBehavior
  | raises (msg : String)
  | returns (env : ToolEnvelope)
deriving DecidableEq

/-- `execute_async_tool` for a registered async tool (tools.py lines
931–939): the awaited call is wrapped in try/except, so an exception becomes
a structured error envelope and the function itself never raises. -/
def execute_async_tool (b : ToolBehavior) : ToolEnvelope :=
  match b with
  | .returns env => env
  | .raises msg => ⟨false, some ("异步工具执行错误: " ++ msg), none⟩

/-- The retry loop of `ReActAgent.run` around one tool call (react.py lines
315–339).  `invoke k` is the outcome of the k-th invocation of the tool path
inside the `try` (`Except.error` models a raised exception).  The first
numeric argument is the number of loop entries still allowed
(`max_retries + 1 - retry_count`); the loop exits on the first invocation
that does not raise, and after exhausting the budget builds the terminal
error embedding the last exception message.  The second component of the
result counts the invocations performed. -/
def tool_retry_go (invoke : ℕ → Except String ToolEnvelope) (maxRetries : ℕ) :
    ℕ → ℕ → Option String → ToolEnvelope × ℕ
  | 0, calls, lastErr =>
      (⟨false,
        some ("工具执行失败（重试" ++ toString maxRetries ++ "次后）: "
          ++ lastErr.getD "None"), none⟩, calls)
  | r + 1, calls, lastErr =>
      match invoke calls with
      | Except.ok env => (env, calls + 1)
      | Except.error msg => tool_retry_go invoke maxRetries r (calls + 1) (some msg)

/-- The full retry loop: `retry_count` from 0 `while retry_count <=
max_retries`. -/
def tool_retry_loop (invoke : ℕ → Except String ToolEnvelope) (maxRetries : ℕ) :
    ToolEnvelope × ℕ :=
  tool_retry_go invoke maxRetries (maxRetries + 1) 0 none

/-- A ReAct tool call to a registered async tool with per-invocation behavior
`behavior`: inside the `try`, `execute_async_tool` is awaited, which never
raises, so the loop's `invoke` always succeeds structurally. -/
def react_async_tool_call (behavior : ℕ → ToolBehavior) (maxRetries : ℕ) :
    ToolEnvelope × ℕ :=
  tool_retry_loop (fun k => Except.ok (execute_async_tool (behavior k))) maxRetries

/-- An async tool that raises twice and then returns a success envelope. -/
def failTwiceBehavior : ℕ → ToolBehavior :=
  fun k => if k ≤ 1 then .raises "连接超时" else .returns ⟨true, none, some "ok"⟩

/-- C6 counterexample: an async tool failing twice and succeeding on the
third try does not return the success envelope with retry_count = 2 — the
first failure is wrapped by `execute_async_tool` into a structured error
envelope, which the retry loop treats as a successful invocation: the call
returns that error envelope after exactly one underlying invocation, and no
retry happens. -/
theorem async_retry_scenarioC_false :
    react_async_tool_call failTwiceBehavior 2 =
      (⟨false, some "异步工具执行错误: 连接超时", none⟩, 1)
    ∧ (react_async_tool_call failTwiceBehavior 2).1.success = false := by
  constructor
  · rfl
  · rfl

/-- Helper: when every invocation raises, the loop performs all
`maxRetries + 1` invocations and returns the terminal error embedding the
last exception message. -/
theorem tool_retry_go_all_errors (invoke : ℕ → Except String ToolEnvelope)
    (maxRetries : ℕ) (msgs : ℕ → String)
    (hinv : ∀ k, invoke k = Except.error (msgs k)) :
    ∀ (r calls : ℕ) (lastErr : Option String),
      tool_retry_go invoke maxRetries r calls lastErr =
        (⟨false,
          some ("工具执行失败（重试" ++ toString maxRetries ++ "次后）: "
            ++ (if r = 0 then lastErr.getD "None" else msgs (calls + r - 1))), none⟩,
         calls + r) := by
  intro r
  induction r with
  | zero => intro calls lastErr; simp [tool_retry_go]
  | succ r ih =>
      intro calls lastErr
      rw [tool_retry_go, hinv calls]
      dsimp only
      rw [ih (calls + 1) (some (msgs calls))]
      cases r with
      | zero => simp
      | succ r' =>
          have harith : calls + 1 + (r' + 1) - 1 = calls + (r' + 1 + 1) - 1 := by omega
          simp only [Nat.succ_ne_zero, if_false, harith]
          have harith2 : calls + 1 + (r' + 1) = calls + (r' + 1 + 1) := by omega
          rw [harith2]

/-- C6 (amended): the dispatch layer retries only exceptions raised by the
invocation path, up to max_retries = 2 times (after a fixed 0.5 s sleep),
before returning a terminal structured error embedding the last exception
message; but a registered async tool's failures are caught inside
`execute_async_tool` and returned as structured error envelopes, which the
retry loop accepts as a successful invocation — so an async tool call always
returns `execute_async_tool` of the first invocation's behavior after exactly
one underlying invocation, with no retry and no retry_count field in the
envelope. -/
theorem async_tool_retry_contract (behavior : ℕ → ToolBehavior)
    (invoke : ℕ → Except String ToolEnvelope) (maxRetries : ℕ) (msgs : ℕ → String) :
    react_async_tool_call behavior maxRetries =
      (execute_async_tool (behavior 0), 1)
    ∧ ((∀ k, invoke k = Except.error (msgs k)) →
        tool_retry_loop invoke maxRetries =
          (⟨false,
            some ("工具执行失败（重试" ++ toString maxRetries ++ "次后）: "
              ++ msgs maxRetries), none⟩,
           maxRetries + 1)) := by
  constructor
  · rfl
  · intro hinv
    rw [tool_retry_loop, tool_retry_go_all_errors invoke maxRetries msgs hinv]
    simp

/-- C6 witness for the amended contract: the fail-twice behavior yields the
wrapped first error after a single invocation, and an always-raising invoke
with message "boom" exhausts the budget with the terminal message. -/
theorem async_tool_retry_contract_witness :
    react_async_tool_call failTwiceBehavior 2 =
      (execute_async_tool (failTwiceBehavior 0), 1)
    ∧ tool_retry_loop (fun _ => Except.error "boom") 2 =
        (⟨false, some ("工具执行失败（重试" ++ toString 2 ++ "次后）: " ++ "boom"),
          none⟩, 2 + 1) :=
  ⟨(async_tool_retry_contract failTwiceBehavior (fun _ => Except.error "boom") 2
      (fun _ => "boom")).1,
   (async_tool_retry_contract failTwiceBehavior (fun _ => Except.error "boom") 2
      (fun _ => "boom")).2 (fun _ => rfl)⟩

end AgentSpec
